import Mathlib

/-!
Shallow embedding of the `parallel` package (src/group.go): a structured
concurrency coordinator.  Go's concurrent execution is modelled as a small
state machine: the mutex-protected critical sections of `Spawn`,
`Group.runTask` and `Exit` become atomic steps on a `Group` record, and an
execution of the group is a list of such events applied in order.
-/

namespace Parallel

/--
Go `error` values as seen by this package.  Identity matters in Go (two
`errors.New` results with the same text are different errors), so `basic`
carries a numeric identity.  `canceled` is the `context.Canceled` sentinel;
`errorf` is an error created by `errors.Errorf` inside the package (no
unwrap chain); `wrapped` is an error wrapping another one (`errors.Wrap` /
`fmt.Errorf` with a wrap verb); `panicStr` and `panicErr` are the
`PanicError` produced by the task runner for a panic with a plain-value
payload resp. an error payload, carrying the captured stack text.
-/
inductive GoError where
  | canceled : GoError
  | basic : Nat → String → GoError
  | errorf : String → GoError
  | wrapped : String → GoError → GoError
  | panicStr : String → String → GoError
  | panicErr : GoError → String → GoError
deriving DecidableEq, Repr

/-- The `Unwrap() error` method used by `errors.Is` chain traversal:
`wrapped` errors unwrap to their inner error, and `PanicError.Unwrap`
returns the payload when the payload is itself an error, else nothing. -/
def GoError.unwrapE : GoError → Option GoError
  | .wrapped _ inner => some inner
  | .panicErr inner _ => some inner
  | _ => none

/-- The `Error() string` method of each error shape: `PanicError` renders
as `"panic: "` followed by the payload's rendering, wrapping appends the
cause's message (pkg/errors style). -/
def GoError.message : GoError → String
  | .canceled => "context canceled"
  | .basic _ msg => msg
  | .errorf msg => msg
  | .wrapped msg inner => msg ++ ": " ++ inner.message
  | .panicStr s _ => "panic: " ++ s
  | .panicErr inner _ => "panic: " ++ inner.message

/-- The `Stack` field of a `PanicError` (empty for other error shapes). -/
def GoError.stackText : GoError → String
  | .panicStr _ st => st
  | .panicErr _ st => st
  | _ => ""

/-- Chain traversal of stdlib `errors.Is err target`: `err == target`, or
some error reached by repeated unwrapping equals `target`. -/
def chainHas (target : GoError) : GoError → Bool
  | .wrapped msg inner => (GoError.wrapped msg inner == target) || chainHas target inner
  | .panicErr inner st => (GoError.panicErr inner st == target) || chainHas target inner
  | e => e == target

/-- `errors.Is` on a possibly-nil Go error value: a nil error matches
nothing (for a non-nil target). -/
def errorsIs : Option GoError → GoError → Bool
  | none, _ => false
  | some e, target => chainHas target e

/--
Modelled from the spec: the `OnExit` 3-valued enumeration (`Continue`,
`Exit`, `Fail`) whose declaring file is not under src/.  In Go it is an
integer type, so unrecognized values are representable; the spec's
defensive-default row requires them (`unrecognized` carries the raw code).
-/
inductive OnExit where
  | Continue : OnExit
  | Exit : OnExit
  | Fail : OnExit
  | unrecognized : Int → OnExit
deriving DecidableEq, Repr

/-- Modelled from the spec: rendering of an `OnExit` value by the `%v` verb
(its `String()` method is in the missing file). -/
def OnExit.render : OnExit → String
  | .Continue => "Continue"
  | .Exit => "Exit"
  | .Fail => "Fail"
  | .unrecognized n => toString n

/-- The payload a task panics with: a plain value (kept as its string form)
or an error value. -/
inductive PanicValue where
  | str : String → PanicValue
  | errv : GoError → PanicValue
deriving DecidableEq, Repr

/-- How one invocation of a task body ends: normal return with nil, normal
return with an error, or a panic raised inside some function, identified by
the name of the frame where the panic originated. -/
inductive TaskResult where
  | ok : TaskResult
  | err : GoError → TaskResult
  | panicked : PanicValue → String → TaskResult
deriving DecidableEq, Repr

/-- Modelled from the spec: the stack text `debug.Stack()` captures at the
fault site — it names the goroutine and the function where the panic
originated (the defer runs in the panicking frame's goroutine, before any
unwinding past it). -/
def stackAt (originFn : String) : String :=
  "goroutine 1 [running]:\n" ++ originFn ++ "(0x0)"

/--
Modelled from the spec: the free function `runTask(ctx, task)` (its file is
not under src/; only its caller `Group.runTask` and its tests are).  It
runs the task body under a deferred recover: a normal return passes the
task's result through, a panic with payload `V` becomes a `PanicError`
`{Value: V, Stack: captured at the fault site, Message: "panic: " + V}`.
-/
def runTaskCapture : TaskResult → Option GoError
  | .ok => none
  | .err e => some e
  | .panicked (.str s) originFn => some (.panicStr s (stackAt originFn))
  | .panicked (.errv e) originFn => some (.panicErr e (stackAt originFn))

/--
The mutex-protected state of a `Group` (src/group.go).  The `done` channel
is modelled by a generation counter (`done`, the channel's identity — a
fresh channel gets a fresh generation) together with `doneClosed` (whether
the current channel has been closed).  `cancelled` records whether
`g.cancel()` has been invoked on the group's context.  `running` is a Go
`int`, hence `Int` here.
-/
structure Group where
  running : Int
  done : Nat
  doneClosed : Bool
  closing : Bool
  err : Option GoError
  cancelled : Bool
deriving DecidableEq, Repr

/-- `NewGroup`: zero running tasks, a `done` channel created and
immediately closed, no result, not closing, context not cancelled. -/
def NewGroup : Group :=
  { running := 0, done := 0, doneClosed := true
    closing := false, err := none, cancelled := false }

/-- `Group.exit` (src/group.go): during shutdown a cancellation-class
error (per `errors.Is err context.Canceled`) is dropped; otherwise the
result slot is written if still unset, and the first call flips `closing`
and cancels the group context. -/
def Group.exit (g : Group) (err : Option GoError) : Group :=
  if g.closing && errorsIs err .canceled then g
  else
    let g1 := if g.err.isNone then { g with err := err } else g
    if !g1.closing then { g1 with closing := true, cancelled := true } else g1

/-- `Group.Exit`: takes the lock and calls `exit`. -/
def Group.Exit (g : Group) (err : Option GoError) : Group :=
  g.exit err

/-- The critical section of `Group.Spawn`: re-arm the `done` channel (a
fresh, unclosed channel) when the running count is zero, then increment
the count.  The concurrent start of the task body is a separate `finish`
event in the execution model. -/
def Group.Spawn (g : Group) : Group :=
  let g1 := if g.running = 0 then { g with done := g.done + 1, doneClosed := false } else g
  { g1 with running := g1.running + 1 }

/-- First half of the critical section at the end of `Group.runTask`
(src/group.go): report the task's outcome.  An error goes to `exit`; a nil
return consults the `OnExit` policy — unless the group is already closing,
in which case the policy is not evaluated at all. -/
def Group.reportOutcome (g : Group) (err : Option GoError) (onExit : OnExit)
    (name : String) : Group :=
  match err with
  | some e => g.exit (some e)
  | none =>
    if !g.closing then
      match onExit with
      | .Continue => g
      | .Exit => g.exit none
      | .Fail => g.exit (some (.errorf ("task " ++ name ++ " terminated unexpectedly")))
      | .unrecognized n =>
          g.exit (some (.errorf ("task " ++ name ++ ": " ++ OnExit.render (.unrecognized n))))
    else g

/-- Second half of the same critical section: decrement the running count
and close the `done` channel when it reaches zero. -/
def Group.finishCount (g : Group) : Group :=
  let g2 := { g with running := g.running - 1 }
  if g2.running = 0 then { g2 with doneClosed := true } else g2

/-- The critical section at the end of `Group.runTask` (src/group.go),
entered once the task body has produced `res` under the capture wrapper:
report the outcome, then decrement the running count and signal
completion at zero.  Both halves run under a single lock acquisition. -/
def Group.runTask (g : Group) (res : TaskResult) (onExit : OnExit) (name : String) : Group :=
  (g.reportOutcome (runTaskCapture res) onExit name).finishCount

/-- `Group.Running`: snapshot of the running count. -/
def Group.Running (g : Group) : Int :=
  g.running

/-- `Group.Done`: the current `done` channel, identified by its
generation. -/
def Group.Done (g : Group) : Nat :=
  g.done

/-- `Group.Wait` returns the group result once the `done` channel is
closed; the value returned is the `err` field of the state at that
moment. -/
def Group.Wait (g : Group) : Option GoError :=
  g.err

/-- `Group.Complete` after its select has fired and `Wait` has returned:
the group result if non-nil, else the outer context's error. -/
def Group.Complete (g : Group) (ctxErr : Option GoError) : Option GoError :=
  match g.Wait with
  | some e => some e
  | none => ctxErr

/-- One atomic event on a group: a `Spawn` critical section, the
end-of-task critical section of `Group.runTask` (carrying how the task
body ended, its policy and its name), or an external `Exit` call. -/
inductive Event where
  | spawn : Event
  | finish : TaskResult → OnExit → String → Event
  | exitCall : Option GoError → Event
deriving DecidableEq, Repr

/-- Apply one event to a group state. -/
def step (g : Group) : Event → Group
  | .spawn => g.Spawn
  | .finish res onExit name => g.runTask res onExit name
  | .exitCall e => g.Exit e

/-- Run a list of events in order. -/
def run (g : Group) (evs : List Event) : Group :=
  evs.foldl step g

/-- A state is reachable when some event sequence leads to it from a fresh
group. -/
def Reachable (g : Group) : Prop :=
  ∃ evs : List Event, run NewGroup evs = g

/-- The completion-gate invariant: the `done` channel is unclosed exactly
while the running count is positive. -/
def Inv (g : Group) : Prop :=
  g.doneClosed = false ↔ 0 < g.running

/-- Whether the channel of generation `k` is closed in state `g`: every
superseded generation is closed forever; the current one is closed iff
`doneClosed`. -/
def gateClosedIn (g : Group) (k : Nat) : Bool :=
  decide (k < g.done) || (k == g.done && g.doneClosed)

/-- The error an event reports into the group, if any (`Spawn` reports
nothing; a task finish reports what the capture wrapper produced; an
`Exit` call reports its argument). -/
def reportedOf : Event → Option GoError
  | .spawn => none
  | .finish res _ _ => runTaskCapture res
  | .exitCall e => e

/-- Every error reported by the events is cancellation-class noise
(matched by `errors.Is · context.Canceled`). -/
def cancelNoiseOnly (evs : List Event) : Bool :=
  evs.all fun ev =>
    match reportedOf ev with
    | none => true
    | some e => errorsIs (some e) .canceled

/-- What `NewSubgroup` (src/group.go) passes to the parent group's spawn
function: the task body it hands over builds the nested group and returns
`g.Complete ctx`, represented by the `subgroupComplete` tag. -/
inductive TaskBody where
  | plain : Nat → TaskBody
  | subgroupComplete : TaskBody
deriving DecidableEq, Repr

/-- The arguments of one call to a `SpawnFn`. -/
structure SpawnCall where
  name : String
  onExit : OnExit
  body : TaskBody
deriving DecidableEq, Repr

/-- `NewSubgroup spawn name onExit fields` performs exactly one spawn
call; this definition records its arguments: the given name, the given
`onExit` policy, and a closure that creates the nested group and returns
its `Complete`. -/
def NewSubgroup (name : String) (onExit : OnExit) : SpawnCall :=
  { name := name, onExit := onExit, body := .subgroupComplete }

/-- `exit` never touches the running count or the `done` channel. -/
theorem exit_fields (g : Group) (x : Option GoError) :
    (g.exit x).running = g.running ∧ (g.exit x).done = g.done ∧
      (g.exit x).doneClosed = g.doneClosed := by
  cases hc : g.closing <;> cases he : g.err <;> cases hiz : errorsIs x .canceled <;>
    simp [Group.exit, hc, he, hiz]

/-- `exit` preserves an already-recorded result. -/
theorem exit_err_some (g : Group) (e : GoError) (x : Option GoError)
    (h : g.err = some e) : (g.exit x).err = some e := by
  cases hc : g.closing <;> cases hiz : errorsIs x .canceled <;>
    simp [Group.exit, hc, h, hiz]

/-- `exit` never unsets `closing`. -/
theorem exit_closing (g : Group) (x : Option GoError) (h : g.closing = true) :
    (g.exit x).closing = true := by
  cases he : g.err <;> cases hiz : errorsIs x .canceled <;>
    simp [Group.exit, h, he, hiz]

/-- While closing, an `exit` with nil or with cancellation-class noise
leaves an unset result slot unset. -/
theorem exit_closed_noise (g : Group) (x : Option GoError)
    (hcl : g.closing = true) (he : g.err = none)
    (hx : x = none ∨ errorsIs x .canceled = true) :
    (g.exit x).err = none := by
  rcases hx with hx | hx
  · subst hx
    simp [Group.exit, hcl, he, errorsIs]
  · simp [Group.exit, hcl, hx, he]

/-- `reportOutcome` never touches the running count or the `done`
channel. -/
theorem reportOutcome_fields (g : Group) (x : Option GoError) (p : OnExit) (n : String) :
    (g.reportOutcome x p n).running = g.running ∧ (g.reportOutcome x p n).done = g.done ∧
      (g.reportOutcome x p n).doneClosed = g.doneClosed := by
  cases x with
  | some e => exact exit_fields g (some e)
  | none =>
    cases hc : g.closing
    · simp only [Group.reportOutcome, hc, Bool.not_false, if_true]
      cases p
      · exact ⟨rfl, rfl, rfl⟩
      · exact exit_fields g none
      · exact exit_fields g _
      · exact exit_fields g _
    · simp [Group.reportOutcome, hc]

/-- `reportOutcome` preserves an already-recorded result. -/
theorem reportOutcome_err_some (g : Group) (e : GoError) (x : Option GoError)
    (p : OnExit) (n : String) (h : g.err = some e) :
    (g.reportOutcome x p n).err = some e := by
  cases x with
  | some e0 => exact exit_err_some g e _ h
  | none =>
    cases hc : g.closing
    · simp only [Group.reportOutcome, hc, Bool.not_false, if_true]
      cases p
      · exact h
      · exact exit_err_some g e _ h
      · exact exit_err_some g e _ h
      · exact exit_err_some g e _ h
    · simp only [Group.reportOutcome, hc, Bool.not_true, Bool.false_eq_true, if_false]
      exact h

/-- `reportOutcome` never unsets `closing`. -/
theorem reportOutcome_closing (g : Group) (x : Option GoError) (p : OnExit) (n : String)
    (h : g.closing = true) : (g.reportOutcome x p n).closing = true := by
  cases x with
  | some e0 => exact exit_closing g _ h
  | none =>
    simp only [Group.reportOutcome, h, Bool.not_true, Bool.false_eq_true, if_false]

/-- `finishCount` only changes `running` and (possibly) `doneClosed`. -/
theorem finishCount_fields (g : Group) :
    g.finishCount.done = g.done ∧ g.finishCount.closing = g.closing ∧
      g.finishCount.err = g.err ∧ g.finishCount.cancelled = g.cancelled ∧
      g.finishCount.running = g.running - 1 := by
  by_cases hr : g.running - 1 = 0 <;> simp [Group.finishCount, hr]

/-- `finishCount` never un-closes the `done` channel. -/
theorem finishCount_doneClosed (g : Group) (h : g.doneClosed = true) :
    g.finishCount.doneClosed = true := by
  by_cases hr : g.running - 1 = 0 <;> simp [Group.finishCount, hr, h]

/-- `Spawn` only changes `running`, `done` and `doneClosed`. -/
theorem spawn_fields (g : Group) :
    g.Spawn.closing = g.closing ∧ g.Spawn.err = g.err ∧ g.Spawn.cancelled = g.cancelled ∧
      g.Spawn.running = g.running + 1 := by
  by_cases hr : g.running = 0 <;> simp [Group.Spawn, hr]

/-- A recorded result survives any single event. -/
theorem err_persists_step (g : Group) (ev : Event) (e : GoError)
    (h : g.err = some e) : (step g ev).err = some e := by
  cases ev with
  | spawn => exact (spawn_fields g).2.1.trans h
  | finish res p n =>
    show (Group.runTask g res p n).err = some e
    unfold Group.runTask
    exact ((finishCount_fields _).2.2.1).trans (reportOutcome_err_some g e _ p n h)
  | exitCall x => exact exit_err_some g e x h

/-- A recorded result survives any event sequence, and `Wait` then
returns it. -/
theorem err_persists_run (evs : List Event) :
    ∀ g : Group, ∀ e : GoError, g.err = some e → (run g evs).err = some e := by
  induction evs with
  | nil => exact fun g e h => h
  | cons ev evs ih => exact fun g e h => ih (step g ev) e (err_persists_step g ev e h)

/-- `closing` is monotone across a single event. -/
theorem closing_persists_step (g : Group) (ev : Event) (h : g.closing = true) :
    (step g ev).closing = true := by
  cases ev with
  | spawn => exact (spawn_fields g).1.trans h
  | finish res p n =>
    show (Group.runTask g res p n).closing = true
    unfold Group.runTask
    exact ((finishCount_fields _).2.1).trans (reportOutcome_closing g _ p n h)
  | exitCall x => exact exit_closing g x h

/-- A single event whose reported error (if any) is cancellation-class
noise cannot set the result slot of a closing group. -/
theorem cancelNoise_step (g : Group) (ev : Event)
    (hcl : g.closing = true) (he : g.err = none)
    (hev : (match reportedOf ev with
            | none => true
            | some e => errorsIs (some e) .canceled) = true) :
    (step g ev).closing = true ∧ (step g ev).err = none := by
  refine ⟨closing_persists_step g ev hcl, ?_⟩
  cases ev with
  | spawn => exact (spawn_fields g).2.1.trans he
  | finish res p n =>
    show (Group.runTask g res p n).err = none
    unfold Group.runTask
    refine ((finishCount_fields _).2.2.1).trans ?_
    unfold Group.reportOutcome
    cases hres : runTaskCapture res with
    | none => simp [hcl, he]
    | some e =>
      refine exit_closed_noise g (some e) hcl he (Or.inr ?_)
      simpa [reportedOf, hres] using hev
  | exitCall x =>
    cases x with
    | none => exact exit_closed_noise g none hcl he (Or.inl rfl)
    | some e =>
      exact exit_closed_noise g (some e) hcl he (Or.inr (by simpa [reportedOf] using hev))

/-- Cancellation-class noise reported after shutdown leaves an unset
result slot unset forever. -/
theorem cancelNoise_run (evs : List Event) :
    ∀ g : Group, g.closing = true → g.err = none → cancelNoiseOnly evs = true →
      (run g evs).closing = true ∧ (run g evs).err = none := by
  induction evs with
  | nil => exact fun g h1 h2 _ => ⟨h1, h2⟩
  | cons ev evs ih =>
    intro g h1 h2 hno
    rw [cancelNoiseOnly, List.all_cons, Bool.and_eq_true] at hno
    have hs := cancelNoise_step g ev h1 h2 hno.1
    exact ih (step g ev) hs.1 hs.2 hno.2

/-- The gate invariant holds for a fresh group. -/
theorem inv_newGroup : Inv NewGroup := by
  simp [Inv, NewGroup]

/-- The gate invariant is preserved by `Spawn`. -/
theorem inv_spawn (g : Group) (h : Inv g) : Inv g.Spawn := by
  unfold Inv at *
  by_cases hr : g.running = 0
  · simp [Group.Spawn, hr]
  · simp only [Group.Spawn, hr, if_false]
    constructor
    · intro hd
      have := h.mp hd
      omega
    · intro hlt
      have : 0 < g.running := by omega
      exact h.mpr this

/-- The gate invariant is preserved by the end-of-task critical
section. -/
theorem inv_runTask (g : Group) (res : TaskResult) (p : OnExit) (n : String)
    (h : Inv g) : Inv (g.runTask res p n) := by
  unfold Group.runTask
  have hf := reportOutcome_fields g (runTaskCapture res) p n
  set g1 := g.reportOutcome (runTaskCapture res) p n with hg1
  unfold Inv at *
  by_cases hr : g1.running - 1 = 0
  · simp [Group.finishCount, hr]
  · simp only [Group.finishCount, hr, if_false]
    rw [hf.2.2, hf.1]
    rw [hf.1] at hr
    constructor
    · intro hd
      have := h.mp hd
      omega
    · intro hlt
      exact h.mpr (by omega)

/-- The gate invariant is preserved by `exit`. -/
theorem inv_exit (g : Group) (x : Option GoError) (h : Inv g) : Inv (g.exit x) := by
  have hf := exit_fields g x
  unfold Inv at *
  rw [hf.2.2, hf.1]
  exact h

/-- The gate invariant is preserved by every event. -/
theorem inv_step (g : Group) (ev : Event) (h : Inv g) : Inv (step g ev) := by
  cases ev with
  | spawn => exact inv_spawn g h
  | finish res p n => exact inv_runTask g res p n h
  | exitCall x => exact inv_exit g x h

/-- The gate invariant holds along every execution. -/
theorem inv_run (evs : List Event) : ∀ g : Group, Inv g → Inv (run g evs) := by
  induction evs with
  | nil => exact fun g h => h
  | cons ev evs ih => exact fun g h => ih (step g ev) (inv_step g ev h)

/-- The gate invariant holds in every reachable state. -/
theorem inv_reachable (g : Group) (h : Reachable g) : Inv g := by
  obtain ⟨evs, rfl⟩ := h
  exact inv_run evs NewGroup inv_newGroup

/-- A closed `done` channel stays closed across a single event: `Spawn`
replaces the channel by a fresh generation instead of reopening it, and
the finish path only ever closes. -/
theorem gate_mono_step (g : Group) (ev : Event) (k : Nat)
    (h : gateClosedIn g k = true) : gateClosedIn (step g ev) k = true := by
  simp only [gateClosedIn, Bool.or_eq_true, decide_eq_true_eq, Bool.and_eq_true,
    beq_iff_eq] at h ⊢
  cases ev with
  | spawn =>
    by_cases hr : g.running = 0
    · simp only [step, Group.Spawn, hr, if_true]
      left
      rcases h with h | h
      · omega
      · omega
    · simp only [step, Group.Spawn, hr, if_false]
      exact h
  | finish res p n =>
    have hf := reportOutcome_fields g (runTaskCapture res) p n
    simp only [step, Group.runTask]
    set g1 := g.reportOutcome (runTaskCapture res) p n with hg1
    have hdone : g1.finishCount.done = g.done := (finishCount_fields g1).1.trans hf.2.1
    rcases h with h | h
    · left
      rw [hdone]
      exact h
    · right
      refine ⟨by rw [hdone]; exact h.1, ?_⟩
      exact finishCount_doneClosed g1 (hf.2.2.trans h.2)
  | exitCall x =>
    have hf := exit_fields g x
    simp only [step, Group.Exit]
    rcases h with h | h
    · left
      rw [hf.2.1]
      exact h
    · right
      rw [hf.2.1, hf.2.2]
      exact h

/-- A closed `done` channel stays closed across any event sequence. -/
theorem gate_mono_run (evs : List Event) :
    ∀ g : Group, ∀ k : Nat,
      gateClosedIn g k = true → gateClosedIn (run g evs) k = true := by
  induction evs with
  | nil => exact fun g k h => h
  | cons ev evs ih => exact fun g k h => ih (step g ev) k (gate_mono_step g ev k h)

/-- C1 counterexample: with `closing` already true and the result slot
unset, an error that merely wraps `context.Canceled` is dropped, not
recorded — refuting the claim that only an exact cancellation-class error
(and not a wrapped variant) is suppressed. -/
theorem C1_counterexample :
    (NewGroup.Exit none).closing = true ∧ (NewGroup.Exit none).err = none ∧
      ((NewGroup.Exit none).Exit (some (.wrapped "op" .canceled))).err = none := by
  decide

/-- C1 (amended): while `closing` is true, an error reported to `exit` is
dropped exactly when `errors.Is err context.Canceled` holds — which
includes errors that merely wrap `context.Canceled`; an error not
matching the cancellation class is still recorded if the slot is
unset. -/
theorem C1_shutdown_suppression (g : Group) (e : GoError) (h : g.closing = true) :
    (errorsIs (some e) .canceled = true → g.exit (some e) = g) ∧
      (errorsIs (some e) .canceled = false → g.err = none →
        (g.exit (some e)).err = some e) ∧
      (∀ m : String, errorsIs (some (.wrapped m .canceled)) .canceled = true) := by
  refine ⟨?_, ?_, ?_⟩
  · intro hiz
    simp [Group.exit, h, hiz]
  · intro hiz he
    simp [Group.exit, h, hiz, he]
  · intro m
    simp [errorsIs, chainHas]

/-- C1 witness: the amended suppression rule applied in a concrete
closing state with an unset slot. -/
theorem C1_shutdown_suppression_witness :
    (NewGroup.Exit none).exit (some (.wrapped "op" .canceled)) = NewGroup.Exit none :=
  (C1_shutdown_suppression (NewGroup.Exit none) (.wrapped "op" .canceled)
      (by decide)).1 (by decide)

/-- C2 counterexample: `NewSubgroup` invoked with the `Continue` policy
passes `Continue`, not `Fail`, to the parent spawn function — refuting
"with the Fail exit policy ... for every invocation of NewSubgroup". -/
theorem C2_counterexample :
    (NewSubgroup "updater" .Continue).onExit = .Continue ∧
      (NewSubgroup "updater" .Continue).onExit ≠ .Fail ∧
      (NewSubgroup "updater" .Continue).body = .subgroupComplete := by
  decide

/-- C2 (amended): for every invocation, `NewSubgroup` registers the
nested group as a single task of the parent group by calling the parent's
spawn function with the caller-supplied name and caller-supplied exit
policy, and with a task body that completes the nested group via its
`Complete` method. -/
theorem C2_newSubgroup_spawn (name : String) (p : OnExit) :
    NewSubgroup name p = { name := name, onExit := p, body := .subgroupComplete } :=
  rfl

/-- C3 counterexample: after an `Exit`-policy task returned nil (shutdown
with nil error, no prior error recorded), a sibling finishing with a
non-cancellation error still becomes the group result, so `Wait` is not
nil — refuting "no error recorded after the nil-error shutdown can become
the result". -/
theorem C3_counterexample :
    (run NewGroup [.spawn, .spawn, .finish .ok .Exit "a"]).closing = true ∧
      (run NewGroup [.spawn, .spawn, .finish .ok .Exit "a"]).err = none ∧
      (run NewGroup [.spawn, .spawn, .finish .ok .Exit "a",
          .finish (.err (.basic 1 "boom")) .Continue "b"]).Wait
        = some (.basic 1 "boom") := by
  decide

/-- C3 (amended): when a task with policy `Exit` returns nil and the
group is not already closing, the group shuts down (closing set, scope
cancelled) with a nil error, leaving the unset result slot unset; `Wait`
then returns nil as long as every error reported afterwards is
cancellation-class noise.  A non-cancellation error reported after the
nil-error shutdown can still become the result, and an error recorded
before it is returned instead. -/
theorem C3_exit_policy_shutdown (g : Group) (name : String) (evs : List Event)
    (hcl : g.closing = false) (he : g.err = none) (hnoise : cancelNoiseOnly evs = true) :
    (g.runTask .ok .Exit name).closing = true ∧
      (g.runTask .ok .Exit name).cancelled = true ∧
      (g.runTask .ok .Exit name).err = none ∧
      (run (g.runTask .ok .Exit name) evs).Wait = none := by
  have key : g.runTask .ok .Exit name = (g.exit none).finishCount := by
    simp only [Group.runTask, runTaskCapture, Group.reportOutcome, hcl, Bool.not_false,
      if_true]
  have hex : (g.exit none).closing = true ∧ (g.exit none).cancelled = true ∧
      (g.exit none).err = none := by
    simp [Group.exit, hcl, he, errorsIs]
  have hfc := finishCount_fields (g.exit none)
  have hcl2 : (g.runTask .ok .Exit name).closing = true := by
    rw [key, hfc.2.1]
    exact hex.1
  have he2 : (g.runTask .ok .Exit name).err = none := by
    rw [key, hfc.2.2.1]
    exact hex.2.2
  refine ⟨hcl2, ?_, he2, ?_⟩
  · rw [key, hfc.2.2.2.1]
    exact hex.2.1
  · exact (cancelNoise_run evs _ hcl2 he2 hnoise).2

/-- C3 witness: the amended statement at a concrete one-task group
followed by cancellation noise. -/
theorem C3_exit_policy_shutdown_witness :
    ((run NewGroup [.spawn]).runTask .ok .Exit "a").closing = true ∧
      ((run NewGroup [.spawn]).runTask .ok .Exit "a").cancelled = true ∧
      ((run NewGroup [.spawn]).runTask .ok .Exit "a").err = none ∧
      (run ((run NewGroup [.spawn]).runTask .ok .Exit "a")
          [.exitCall (some (.wrapped "op" .canceled))]).Wait = none :=
  C3_exit_policy_shutdown (run NewGroup [.spawn]) "a"
    [.exitCall (some (.wrapped "op" .canceled))] (by decide) (by decide) (by decide)

/-- C4: the result slot is first-write-wins: an error reported while the
slot is unset (and the group not yet closing) is recorded as exactly that
error value, and it survives every later event unchanged, so `Wait`
returns exactly the first recorded error. -/
theorem C4_first_write_wins (g : Group) (e : GoError) (evs : List Event)
    (he : g.err = none) (hcl : g.closing = false) :
    (g.exit (some e)).err = some e ∧ (run (g.exit (some e)) evs).Wait = some e := by
  have h1 : (g.exit (some e)).err = some e := by
    simp [Group.exit, hcl, he]
  exact ⟨h1, err_persists_run evs _ e h1⟩

/-- C4 witness: the first of two reported errors is returned by `Wait`
unmodified even after a second failure report. -/
theorem C4_first_write_wins_witness :
    ((run NewGroup [.spawn]).exit (some (.basic 7 "boom"))).err = some (.basic 7 "boom") ∧
      (run ((run NewGroup [.spawn]).exit (some (.basic 7 "boom")))
          [.spawn, .finish (.err (.basic 8 "other")) .Continue "b"]).Wait
        = some (.basic 7 "boom") :=
  C4_first_write_wins (run NewGroup [.spawn]) (.basic 7 "boom")
    [.spawn, .finish (.err (.basic 8 "other")) .Continue "b"] (by decide) (by decide)

/-- C5: in every reachable state the `done` channel is unclosed exactly
while the running count is positive; `Spawn` creates a fresh unclosed
channel exactly on the 0→1 transition (and otherwise leaves the channel
alone), and the end-of-task path closes the same-generation channel
exactly when the count reaches zero. -/
theorem C5_completion_gate (g : Group) (h : Reachable g) :
    (g.doneClosed = false ↔ 0 < g.running) ∧
      (g.running = 0 →
        g.Spawn.done = g.done + 1 ∧ g.Spawn.doneClosed = false ∧ g.Spawn.running = 1) ∧
      (g.running ≠ 0 →
        g.Spawn.done = g.done ∧ g.Spawn.doneClosed = g.doneClosed ∧
          g.Spawn.running = g.running + 1) ∧
      (∀ res p n, g.running = 1 →
        (g.runTask res p n).done = g.done ∧ (g.runTask res p n).doneClosed = true ∧
          (g.runTask res p n).running = 0) ∧
      (∀ res p n, 1 < g.running →
        (g.runTask res p n).done = g.done ∧ (g.runTask res p n).doneClosed = false ∧
          (g.runTask res p n).running = g.running - 1) := by
  have hinv := inv_reachable g h
  refine ⟨hinv, ?_, ?_, ?_, ?_⟩
  · intro hr
    simp [Group.Spawn, hr]
  · intro hr
    simp [Group.Spawn, hr]
  · intro res p n hr
    have hf := reportOutcome_fields g (runTaskCapture res) p n
    unfold Group.runTask
    set g1 := g.reportOutcome (runTaskCapture res) p n with hg1
    have hr1 : g1.running - 1 = 0 := by
      rw [hf.1, hr]
      omega
    simp [Group.finishCount, hr1, hf.2.1, hf.1, hr]
  · intro res p n hr
    have hf := reportOutcome_fields g (runTaskCapture res) p n
    unfold Group.runTask
    set g1 := g.reportOutcome (runTaskCapture res) p n with hg1
    have hr1 : ¬(g.running - 1 = 0) := by
      omega
    have hdc : g1.doneClosed = false := by
      rw [hf.2.2]
      exact hinv.mpr (by omega)
    simp [Group.finishCount, hr1, hf.2.1, hdc, hf.1]

/-- C5 witness: in the reachable one-task state, finishing the task
closes the same-generation channel and brings the count to zero. -/
theorem C5_completion_gate_witness :
    ((run NewGroup [.spawn]).runTask .ok .Continue "a").done
        = (run NewGroup [.spawn]).done ∧
      ((run NewGroup [.spawn]).runTask .ok .Continue "a").doneClosed = true ∧
      ((run NewGroup [.spawn]).runTask .ok .Continue "a").running = 0 :=
  (C5_completion_gate (run NewGroup [.spawn]) ⟨[.spawn], rfl⟩).2.2.2.1 .ok .Continue "a"
    (by decide)

/-- C6 counterexample: a `Fail`-policy task returning nil while the group
is already closing triggers nothing: the policy switch is skipped, no
synthetic error is produced and the result stays nil — refuting the
claim quantified over every `Fail`-policy task. -/
theorem C6_counterexample :
    ((run NewGroup [.spawn]).Exit none).closing = true ∧
      (((run NewGroup [.spawn]).Exit none).runTask .ok .Fail "doomed").err = none ∧
      (((run NewGroup [.spawn]).Exit none).runTask .ok .Fail "doomed").Wait = none := by
  decide

/-- C6 (amended): a task spawned with policy `Fail` that returns nil
while the group is not already closing triggers shutdown with the
synthetic error "task <name> terminated unexpectedly", recorded as the
group result when the slot is unset (a previously recorded result is
kept). -/
theorem C6_fail_policy (g : Group) (name : String) (hcl : g.closing = false) :
    (g.runTask .ok .Fail name).closing = true ∧
      (g.runTask .ok .Fail name).cancelled = true ∧
      (g.err = none → (g.runTask .ok .Fail name).err
          = some (.errorf ("task " ++ name ++ " terminated unexpectedly"))) ∧
      (∀ e, g.err = some e → (g.runTask .ok .Fail name).err = some e) := by
  have key : g.runTask .ok .Fail name
      = (g.exit (some (.errorf ("task " ++ name ++ " terminated unexpectedly")))).finishCount := by
    simp only [Group.runTask, runTaskCapture, Group.reportOutcome, hcl, Bool.not_false,
      if_true]
  have hfc := finishCount_fields
    (g.exit (some (.errorf ("task " ++ name ++ " terminated unexpectedly"))))
  refine ⟨?_, ?_, ?_, ?_⟩
  · rw [key, hfc.2.1]
    cases he : g.err <;> simp [Group.exit, hcl, he]
  · rw [key, hfc.2.2.2.1]
    cases he : g.err <;> simp [Group.exit, hcl, he]
  · intro he
    rw [key, hfc.2.2.1]
    simp [Group.exit, hcl, he]
  · intro e he
    rw [key, hfc.2.2.1]
    exact exit_err_some g e _ he

/-- C6 witness: the amended statement at a concrete open one-task
group. -/
theorem C6_fail_policy_witness :
    ((run NewGroup [.spawn]).runTask .ok .Fail "doomed").closing = true ∧
      ((run NewGroup [.spawn]).runTask .ok .Fail "doomed").err
        = some (.errorf ("task " ++ "doomed" ++ " terminated unexpectedly")) :=
  ⟨(C6_fail_policy (run NewGroup [.spawn]) "doomed" (by decide)).1,
    (C6_fail_policy (run NewGroup [.spawn]) "doomed" (by decide)).2.2.1 (by decide)⟩

/-- C7: after `Complete`'s select has fired and the remaining subtasks
have finished, it returns the group result when that is a non-nil error,
and otherwise returns the outer context's error instead of nil. -/
theorem C7_complete_result (g : Group) (ctxErr : Option GoError) :
    (∀ e, g.Wait = some e → g.Complete ctxErr = some e) ∧
      (g.Wait = none → g.Complete ctxErr = ctxErr) := by
  unfold Group.Complete
  constructor
  · intro e hw
    rw [hw]
  · intro hw
    rw [hw]

/-- C7 witness: a non-nil group result is returned as-is; a nil group
result is replaced by the outer context's cancellation error. -/
theorem C7_complete_result_witness :
    Group.Complete { NewGroup with err := some (.basic 3 "boom") } (some .canceled)
        = some (.basic 3 "boom") ∧
      Group.Complete NewGroup (some .canceled) = some .canceled :=
  ⟨(C7_complete_result { NewGroup with err := some (.basic 3 "boom") }
        (some .canceled)).1 (.basic 3 "boom") rfl,
    (C7_complete_result NewGroup (some .canceled)).2 rfl⟩

/-- C8: a task panicking with a plain value `V` yields a group result
whose unwrap accessor returns nothing, whose message is `"panic: " ++ V`,
and whose stack text names the function where the panic originated; a
task panicking with an error `E` yields a result unwrapping to `E` with
message `"panic: " ++ E.message` and the same origin-site stack. -/
theorem C8_panic_capture (s : String) (fn : String) (e : GoError) :
    (runTaskCapture (.panicked (.str s) fn) = some (.panicStr s (stackAt fn)) ∧
        (GoError.panicStr s (stackAt fn)).unwrapE = none ∧
        (GoError.panicStr s (stackAt fn)).message = "panic: " ++ s ∧
        (∃ pre post, (GoError.panicStr s (stackAt fn)).stackText = pre ++ fn ++ post) ∧
        (run NewGroup [.spawn, .finish (.panicked (.str s) fn) .Fail "doomed"]).Wait
          = some (.panicStr s (stackAt fn))) ∧
      (runTaskCapture (.panicked (.errv e) fn) = some (.panicErr e (stackAt fn)) ∧
        (GoError.panicErr e (stackAt fn)).unwrapE = some e ∧
        (GoError.panicErr e (stackAt fn)).message = "panic: " ++ e.message ∧
        (∃ pre post, (GoError.panicErr e (stackAt fn)).stackText = pre ++ fn ++ post)) :=
  ⟨⟨rfl, rfl, rfl, ⟨"goroutine 1 [running]:\n", "(0x0)", rfl⟩, rfl⟩,
    ⟨rfl, rfl, rfl, ⟨"goroutine 1 [running]:\n", "(0x0)", rfl⟩⟩⟩

/-- C9: a `done` channel obtained while the running count is zero is
closed at that moment and observed closed forever after, whatever events
follow: re-arming creates a fresh channel generation instead of reopening
the one handed out. -/
theorem C9_gate_never_reopens (g : Group) (evs : List Event)
    (hreach : Reachable g) (hrun : g.running = 0) :
    gateClosedIn g g.Done = true ∧ gateClosedIn (run g evs) g.Done = true := by
  have hinv := inv_reachable g hreach
  have hdc : g.doneClosed = true := by
    cases hb : g.doneClosed with
    | false => exact absurd (hinv.mp hb) (by omega)
    | true => rfl
  have h0 : gateClosedIn g g.done = true := by
    simp [gateClosedIn, hdc]
  exact ⟨h0, gate_mono_run evs g g.done h0⟩

/-- C9 witness: the channel handed out by a fresh (zero-count) group is
closed and stays closed after a later spawn re-arms the group with a new
channel. -/
theorem C9_gate_never_reopens_witness :
    gateClosedIn NewGroup NewGroup.Done = true ∧
      gateClosedIn (run NewGroup [.spawn]) NewGroup.Done = true :=
  C9_gate_never_reopens NewGroup [.spawn] ⟨[], rfl⟩ rfl

/-- C10: while the group is not yet closing, a cancellation-class error
reported to `exit` is treated like any other error: it is recorded when
the slot is unset (a recorded result is preserved), and it sets `closing`
and cancels the group scope. -/
theorem C10_cancel_before_closing (g : Group) (e : GoError)
    (hcl : g.closing = false) (_hcanc : errorsIs (some e) .canceled = true) :
    (g.exit (some e)).closing = true ∧ (g.exit (some e)).cancelled = true ∧
      (g.err = none → (g.exit (some e)).err = some e) ∧
      (∀ e0, g.err = some e0 → (g.exit (some e)).err = some e0) := by
  refine ⟨?_, ?_, ?_, ?_⟩
  · cases he : g.err <;> simp [Group.exit, hcl, he]
  · cases he : g.err <;> simp [Group.exit, hcl, he]
  · intro he
    simp [Group.exit, hcl, he]
  · intro e0 he
    exact exit_err_some g e0 _ he

/-- C10 witness: `context.Canceled` reported to an open fresh group is
recorded and closes the group. -/
theorem C10_cancel_before_closing_witness :
    (NewGroup.exit (some .canceled)).closing = true ∧
      (NewGroup.exit (some .canceled)).err = some .canceled :=
  ⟨(C10_cancel_before_closing NewGroup .canceled rfl (by decide)).1,
    (C10_cancel_before_closing NewGroup .canceled rfl (by decide)).2.2.1 rfl⟩

end Parallel
